import Mathlib

/-!
Shallow embedding of the rating-service domain core: entity models with their
validating constructors (internal/domain/model), the pagination contract
(pkg/pagination), the two relational repository backends (MySQLRepository and
PostgresRepository in the repository package) and the domain orchestration
service (RatingService in the service package).

Modelling conventions:
* UUIDs are natural numbers; `UUID.nil` plays the role of `uuid.Nil` (the
  all-zero UUID).  Only equality and the nil check are ever used by the code.
* Timestamps are integers; `time.Now()` is passed in explicitly as a `now`
  argument, and `uuid.New()` as a `newID` argument, making the functions pure.
* Go errors are strings (the code creates them with `errors.New`/`fmt.Errorf`
  and compares nothing but presence), fallible functions return
  `Except String`.
* The relational store is a `Store` of three lists mirroring the tables of
  scripts/init.sql; SQL queries are translated row-by-row: WHERE is `filter`,
  ORDER BY is an insertion sort with the column comparator, LIMIT/OFFSET are
  `take`/`drop`, COUNT(*) is `length`, and the JOIN in review queries is a
  `filterMap` over the rating table.  ORDER BY against a column that is absent
  from the queried table (possible because `sanitizeSortField` shares one
  allow-list across all three tables) is a database error.
* Go stateful methods thread the store explicitly: an operation returns
  `Except String α × Store`, and the failing branches return the input store
  unchanged, exactly as the Go code returns before reaching the INSERT/UPDATE.
* Go integer division appears only in `NewParamsWithOffset`, guarded by
  `offset > 0 && limit > 0`, where truncated division of Go and the `Int`
  division agree.
-/

namespace RatingSystem

/-- UUIDs are modelled as naturals; `UUID.nil` is `uuid.Nil`. -/
abbrev UUID := Nat

def UUID.nil : UUID := 0

/-! ## Pagination contract (src/pkg/pagination/pagination.go) -/

/-- The `PaginationParams` struct: page number (1-based), items per page,
sort field and sort direction. -/
structure PaginationParams where
  Page : Int
  Limit : Int
  SortBy : String
  SortDirection : String
  deriving DecidableEq

def PaginationParams.GetPage (p : PaginationParams) : Int := p.Page

def PaginationParams.GetLimit (p : PaginationParams) : Int := p.Limit

/-- GetOffset computes the offset from page and limit. -/
def PaginationParams.GetOffset (p : PaginationParams) : Int := (p.Page - 1) * p.Limit

def PaginationParams.GetSortBy (p : PaginationParams) : String := p.SortBy

def PaginationParams.GetSortDirection (p : PaginationParams) : String := p.SortDirection

/-- NewParams: page-based constructor with defaults (page ≤ 0 → 1,
limit ≤ 0 → 10, direction not in {asc, desc} → desc). -/
def NewParams (page limit : Int) (sortBy sortDirection : String) : PaginationParams :=
  let page := if page ≤ 0 then 1 else page
  let limit := if limit ≤ 0 then 10 else limit
  let sortDirection :=
    if sortDirection ≠ "asc" ∧ sortDirection ≠ "desc" then "desc" else sortDirection
  ⟨page, limit, sortBy, sortDirection⟩

/-- NewParamsWithOffset: offset-based constructor.  It stores no offset field;
it derives a page as `offset / limit + 1` (when both are positive) and the
offset later read back through `GetOffset` is recomputed from that page. -/
def NewParamsWithOffset (limit offset : Int) (sortBy sortDirection : String) : PaginationParams :=
  let limit := if limit ≤ 0 then 10 else limit
  let offset := if offset < 0 then 0 else offset
  let page := if offset > 0 ∧ limit > 0 then offset / limit + 1 else 1
  let sortDirection :=
    if sortDirection ≠ "asc" ∧ sortDirection ≠ "desc" then "desc" else sortDirection
  ⟨page, limit, sortBy, sortDirection⟩

/-- The concrete `Pagination` helper used by the MySQL repository. -/
structure Pagination where
  Page : Int
  Limit : Int
  deriving DecidableEq

def NewPagination (page limit : Int) : Pagination :=
  let page := if page ≤ 0 then 1 else page
  let limit := if limit ≤ 0 then 10 else limit
  ⟨page, limit⟩

def Pagination.GetLimit (p : Pagination) : Int := p.Limit

def Pagination.GetOffset (p : Pagination) : Int := (p.Page - 1) * p.Limit

/-! ## Entity models (src/internal/domain/model) -/

/-- A user rating of a service (model/rating.go). -/
structure Rating where
  ID : UUID
  UserID : UUID
  ServiceID : UUID
  Score : Int
  CreatedAt : Int
  UpdatedAt : Int
  deriving DecidableEq

/-- NewRating validates the identifiers and the score range. -/
def NewRating (userID serviceID : UUID) (score : Int) (newID : UUID) (now : Int) :
    Except String Rating :=
  if userID = UUID.nil then .error "user ID cannot be empty"
  else if serviceID = UUID.nil then .error "service ID cannot be empty"
  else if score < 1 ∨ score > 5 then .error "score must be between 1 and 5"
  else .ok ⟨newID, userID, serviceID, score, now, now⟩

/-- UpdateScore validates the score range; on failure the rating is left
unchanged (Go mutates the receiver only after the validation passes). -/
def Rating.UpdateScore (r : Rating) (score : Int) (now : Int) : Except String Rating :=
  if score < 1 ∨ score > 5 then .error "score must be between 1 and 5"
  else .ok { r with Score := score, UpdatedAt := now }

/-- The derived average-rating aggregate.  The score is a rational: the SQL
AVG aggregate over integer scores; 0 when there are no rows. -/
structure AverageRating where
  ServiceID : UUID
  AverageScore : ℚ
  TotalRatings : Nat
  deriving DecidableEq

/-- A review of a service, referencing the rating it elaborates on
(model/review.go). -/
structure Review where
  ID : UUID
  UserID : UUID
  ServiceID : UUID
  RatingID : UUID
  Title : String
  Content : String
  CreatedAt : Int
  UpdatedAt : Int
  deriving DecidableEq

def NewReview (userID serviceID ratingID : UUID) (title content : String)
    (newID : UUID) (now : Int) : Except String Review :=
  if userID = UUID.nil then .error "user ID cannot be empty"
  else if serviceID = UUID.nil then .error "service ID cannot be empty"
  else if ratingID = UUID.nil then .error "rating ID cannot be empty"
  else if title = "" then .error "title cannot be empty"
  else if content = "" then .error "content cannot be empty"
  else .ok ⟨newID, userID, serviceID, ratingID, title, content, now, now⟩

def Review.UpdateContent (r : Review) (title content : String) (now : Int) :
    Except String Review :=
  if title = "" then .error "title cannot be empty"
  else if content = "" then .error "content cannot be empty"
  else .ok { r with Title := title, Content := content, UpdatedAt := now }

/-- The read-only composite of a review and its rating score, produced by the
join queries. -/
structure ReviewWithRating where
  review : Review
  Score : Int
  deriving DecidableEq

/-- A comment on a review (model/rating.go). -/
structure Comment where
  ID : UUID
  UserID : UUID
  ReviewID : UUID
  Content : String
  CreatedAt : Int
  UpdatedAt : Int
  deriving DecidableEq

def NewComment (userID reviewID : UUID) (content : String) (newID : UUID) (now : Int) :
    Except String Comment :=
  if userID = UUID.nil then .error "user ID cannot be empty"
  else if reviewID = UUID.nil then .error "review ID cannot be empty"
  else if content = "" then .error "content cannot be empty"
  else .ok ⟨newID, userID, reviewID, content, now, now⟩

def Comment.UpdateContent (c : Comment) (content : String) (now : Int) :
    Except String Comment :=
  if content = "" then .error "content cannot be empty"
  else .ok { c with Content := content, UpdatedAt := now }

/-! ## The relational store (scripts/init.sql) -/

/-- The three tables of init.sql. -/
structure Store where
  ratings : List Rating
  reviews : List Review
  comments : List Comment
  deriving DecidableEq

/-- The uniqueness constraint `unique_user_service` on ratings(user_id,
service_id): no two rows share the pair. -/
def ratingsUniquePerPair (l : List Rating) : Prop :=
  l.Pairwise fun a b => ¬(a.UserID = b.UserID ∧ a.ServiceID = b.ServiceID)

/-- The foreign key reviews(rating_id) → ratings(id): every review row
references an existing rating row. -/
def Store.reviewsHaveRatings (st : Store) : Prop :=
  ∀ rv ∈ st.reviews, ∃ rt ∈ st.ratings, rt.ID = rv.RatingID

/-! ## Repository point operations (src, repository package)

The read queries are identical in both backends up to placeholder syntax and
UUID column representation, so they share one translation.  The write paths
differ where noted. -/

/-- SELECT ... FROM ratings WHERE id = ?  (QueryRow takes the first row;
sql.ErrNoRows becomes the "rating not found" error at the caller). -/
def Store.getRatingByID (st : Store) (id : UUID) : Option Rating :=
  st.ratings.find? fun r => r.ID == id

/-- SELECT ... FROM ratings WHERE user_id = ? AND service_id = ? -/
def Store.getRatingByUserAndService (st : Store) (userID serviceID : UUID) : Option Rating :=
  st.ratings.find? fun r => r.UserID == userID && r.ServiceID == serviceID

/-- SELECT r.*, rt.score FROM reviews r JOIN ratings rt ON r.rating_id = rt.id
WHERE r.id = ? : the review row is visible only together with its rating. -/
def Store.getReviewWithRatingByID (st : Store) (id : UUID) : Option ReviewWithRating :=
  match st.reviews.find? fun rv => rv.ID == id with
  | none => none
  | some rv =>
    match st.ratings.find? fun rt => rt.ID == rv.RatingID with
    | none => none
    | some rt => some ⟨rv, rt.Score⟩

/-- SELECT ... FROM comments WHERE id = ? -/
def Store.getCommentByID (st : Store) (id : UUID) : Option Comment :=
  st.comments.find? fun c => c.ID == id

/-- INSERT INTO ratings: the `unique_user_service` constraint rejects a second
row for the same (user_id, service_id); both backends translate the vendor
signal into a backend-independent "already exists" error (the MySQL and
Postgres message texts differ slightly; the Postgres one is used here). -/
def Store.insertRating (st : Store) (r : Rating) : Except String Store :=
  if st.ratings.any fun x => x.UserID == r.UserID && x.ServiceID == r.ServiceID then
    .error "rating already exists for this user and service"
  else .ok { st with ratings := st.ratings ++ [r] }

/-- INSERT INTO reviews: the `unique_rating` constraint rejects a second
review for the same rating_id. -/
def Store.insertReview (st : Store) (rv : Review) : Except String Store :=
  if st.reviews.any fun x => x.RatingID == rv.RatingID then
    .error "review already exists for this rating"
  else .ok { st with reviews := st.reviews ++ [rv] }

/-- INSERT INTO comments (no uniqueness constraint). -/
def Store.insertComment (st : Store) (c : Comment) : Store :=
  { st with comments := st.comments ++ [c] }

/-- UPDATE ratings SET score = ?, updated_at = ? WHERE id = ? -/
def Store.updateRatingRow (st : Store) (r : Rating) : Store :=
  { st with ratings := st.ratings.map fun x =>
      if x.ID == r.ID then { x with Score := r.Score, UpdatedAt := r.UpdatedAt } else x }

/-- UPDATE reviews SET title = ?, content = ?, updated_at = ? WHERE id = ? -/
def Store.updateReviewRow (st : Store) (rv : Review) : Store :=
  { st with reviews := st.reviews.map fun x =>
      if x.ID == rv.ID then
        { x with Title := rv.Title, Content := rv.Content, UpdatedAt := rv.UpdatedAt }
      else x }

/-- UPDATE comments SET content = ?, updated_at = ? WHERE id = ? -/
def Store.updateCommentRow (st : Store) (c : Comment) : Store :=
  { st with comments := st.comments.map fun x =>
      if x.ID == c.ID then { x with Content := c.Content, UpdatedAt := c.UpdatedAt } else x }

/-- PostgresRepository.UpdateRating: executes the UPDATE and does not inspect
the affected-row count. -/
def pgUpdateRating (st : Store) (r : Rating) : Except String Store :=
  .ok (st.updateRatingRow r)

/-- MySQLRepository.UpdateRating: returns "rating not found" when the UPDATE
matched no row. -/
def mysqlUpdateRating (st : Store) (r : Rating) : Except String Store :=
  if st.ratings.any fun x => x.ID == r.ID then .ok (st.updateRatingRow r)
  else .error "rating not found"

/-! ## Sorting and pagination of result sets

`insSort`/`ordIns` give the semantics of ORDER BY with a column comparator
(ties are broken by input order; every state used in a concrete theorem below
has distinct keys, so nothing depends on the tie-break).  `sqlPage` is
LIMIT ? OFFSET ?. -/

def ordIns (le : α → α → Bool) (a : α) : List α → List α
  | [] => [a]
  | b :: l => if le a b then a :: b :: l else b :: ordIns le a l

def insSort (le : α → α → Bool) : List α → List α
  | [] => []
  | a :: l => ordIns le a (insSort le l)

/-- ORDER BY with comparator `le`, descending when `desc` is true. -/
def sqlOrder (le : α → α → Bool) (desc : Bool) (l : List α) : List α :=
  if desc then insSort (fun a b => le b a) l else insSort le l

/-- LIMIT/OFFSET.  Negative values would be rejected by the database; every
use below is under nonnegativity hypotheses or compares two queries with the
same values. -/
def sqlPage (l : List α) (limit offset : Int) : List α :=
  (l.drop offset.toNat).take limit.toNat

/-- The shared sort-field allow-list of `sanitizeSortField`. -/
def allowedSortFields : List String := ["score", "created_at", "updated_at", "title", "content"]

/-- Character-wise ASCII lowercasing (what strings.ToLower does on the ASCII
column names involved here). -/
def strLower (s : String) : String :=
  ⟨s.data.map Char.toLower⟩

/-- sanitizeSortField lowercases the field and replaces anything outside the
allow-list by "created_at". -/
def sanitizeSortField (field : String) : String :=
  let f := strLower field
  if allowedSortFields.contains f then f else "created_at"

/-- Comparator for ORDER BY on the ratings table.  Only score, created_at and
updated_at are columns of this table. -/
def ratingLE (field : String) (a b : Rating) : Bool :=
  if field = "score" then decide (a.Score ≤ b.Score)
  else if field = "updated_at" then decide (a.UpdatedAt ≤ b.UpdatedAt)
  else decide (a.CreatedAt ≤ b.CreatedAt)

/-- The columns of the ratings table that the allow-list can resolve to;
"title" and "content" would be undefined columns in its ORDER BY. -/
def ratingColumns : List String := ["score", "created_at", "updated_at"]

/-- Comparator for ORDER BY on the joined review query: rt.score for "score",
r.<field> otherwise.  String columns compare in lexicographic order (the
database collation is abstracted to the string order of Lean). -/
def reviewLE (field : String) (a b : ReviewWithRating) : Bool :=
  if field = "score" then decide (a.Score ≤ b.Score)
  else if field = "updated_at" then decide (a.review.UpdatedAt ≤ b.review.UpdatedAt)
  else if field = "title" then decide (a.review.Title ≤ b.review.Title)
  else if field = "content" then decide (a.review.Content ≤ b.review.Content)
  else decide (a.review.CreatedAt ≤ b.review.CreatedAt)

/-- Comparator for ORDER BY on the comments table. -/
def commentLE (field : String) (a b : Comment) : Bool :=
  if field = "updated_at" then decide (a.UpdatedAt ≤ b.UpdatedAt)
  else if field = "content" then decide (a.Content ≤ b.Content)
  else decide (a.CreatedAt ≤ b.CreatedAt)

/-- The columns of the comments table that the allow-list can resolve to;
"score" and "title" would be undefined columns in its ORDER BY. -/
def commentColumns : List String := ["created_at", "updated_at", "content"]

/-- The FROM/JOIN/WHERE clause shared by the review list queries of both
backends: reviews of the service joined with their ratings. -/
def Store.reviewRowsForService (st : Store) (serviceID : UUID) : List ReviewWithRating :=
  (st.reviews.filter fun rv => rv.ServiceID == serviceID).filterMap fun rv =>
    (st.ratings.find? fun rt => rt.ID == rv.RatingID).map fun rt => ⟨rv, rt.Score⟩

/-! ## List operations, Postgres backend

Each runs an independent COUNT(*) over the filter, then the page query with
caller-controlled sorting: when sortBy is non-empty the sanitized field and
the direction of the params are interpolated, otherwise a fixed default order. -/

/-- PostgresRepository.GetRatingsByService. -/
def pgGetRatingsByService (st : Store) (serviceID : UUID) (params : PaginationParams) :
    Except String (List Rating × Nat) :=
  let rows := st.ratings.filter fun r => r.ServiceID == serviceID
  let total := rows.length
  if params.GetSortBy ≠ "" then
    let field := sanitizeSortField params.GetSortBy
    if ratingColumns.contains field then
      .ok (sqlPage (sqlOrder (ratingLE field) (params.GetSortDirection == "desc") rows)
            params.GetLimit params.GetOffset, total)
    else .error "column does not exist"
  else
    .ok (sqlPage (sqlOrder (ratingLE "created_at") true rows)
          params.GetLimit params.GetOffset, total)

/-- PostgresRepository.GetReviewsByService.  Every allow-listed field resolves
to a column of the joined query, so no undefined-column branch exists. -/
def pgGetReviewsByService (st : Store) (serviceID : UUID) (params : PaginationParams) :
    Except String (List ReviewWithRating × Nat) :=
  let total := (st.reviews.filter fun rv => rv.ServiceID == serviceID).length
  let rows := st.reviewRowsForService serviceID
  if params.GetSortBy ≠ "" then
    let field := sanitizeSortField params.GetSortBy
    .ok (sqlPage (sqlOrder (reviewLE field) (params.GetSortDirection == "desc") rows)
          params.GetLimit params.GetOffset, total)
  else
    .ok (sqlPage (sqlOrder (reviewLE "created_at") true rows)
          params.GetLimit params.GetOffset, total)

/-- PostgresRepository.GetCommentsByReview (default order ascending). -/
def pgGetCommentsByReview (st : Store) (reviewID : UUID) (params : PaginationParams) :
    Except String (List Comment × Nat) :=
  let rows := st.comments.filter fun c => c.ReviewID == reviewID
  let total := rows.length
  if params.GetSortBy ≠ "" then
    let field := sanitizeSortField params.GetSortBy
    if commentColumns.contains field then
      .ok (sqlPage (sqlOrder (commentLE field) (params.GetSortDirection == "desc") rows)
            params.GetLimit params.GetOffset, total)
    else .error "column does not exist"
  else
    .ok (sqlPage (sqlOrder (commentLE "created_at") false rows)
          params.GetLimit params.GetOffset, total)

/-! ## List operations, MySQL backend

These rebuild the paging from `NewPagination(params.GetPage(), params.GetLimit())`
and hard-code the ORDER BY: the sortBy and sortDirection of the caller are ignored. -/

/-- MySQLRepository.GetRatingsByService (ORDER BY created_at DESC, fixed). -/
def mysqlGetRatingsByService (st : Store) (serviceID : UUID) (params : PaginationParams) :
    Except String (List Rating × Nat) :=
  let page := NewPagination params.GetPage params.GetLimit
  let rows := st.ratings.filter fun r => r.ServiceID == serviceID
  let total := rows.length
  .ok (sqlPage (sqlOrder (ratingLE "created_at") true rows) page.GetLimit page.GetOffset, total)

/-- MySQLRepository.GetReviewsByService (ORDER BY r.created_at DESC, fixed). -/
def mysqlGetReviewsByService (st : Store) (serviceID : UUID) (params : PaginationParams) :
    Except String (List ReviewWithRating × Nat) :=
  let page := NewPagination params.GetPage params.GetLimit
  let total := (st.reviews.filter fun rv => rv.ServiceID == serviceID).length
  let rows := st.reviewRowsForService serviceID
  .ok (sqlPage (sqlOrder (reviewLE "created_at") true rows) page.GetLimit page.GetOffset, total)

/-- MySQLRepository.GetCommentsByReview (ORDER BY created_at ASC, fixed). -/
def mysqlGetCommentsByReview (st : Store) (reviewID : UUID) (params : PaginationParams) :
    Except String (List Comment × Nat) :=
  let page := NewPagination params.GetPage params.GetLimit
  let rows := st.comments.filter fun c => c.ReviewID == reviewID
  let total := rows.length
  .ok (sqlPage (sqlOrder (commentLE "created_at") false rows) page.GetLimit page.GetOffset, total)

/-- SELECT AVG(score), COUNT(*) FROM ratings WHERE service_id = ? — AVG over
no rows is NULL, which both backends turn into 0. -/
def Store.CalculateAverageRating (st : Store) (serviceID : UUID) : AverageRating :=
  let scores := (st.ratings.filter fun r => r.ServiceID == serviceID).map (·.Score)
  let total := scores.length
  let avg : ℚ := if total = 0 then 0 else ((scores.sum : Int) : ℚ) / (total : ℚ)
  ⟨serviceID, avg, total⟩

/-! ## Domain orchestration service (RatingService, service package)

Methods thread the store; failing branches return the input store, matching
the Go code returning before any write. -/

/-- RatingService.CreateRating: check-then-act upsert.  When a rating for the
pair exists, the Go code calls `existingRating.UpdateScore(score)` and
discards its error return, so a failed validation leaves the rating unchanged
and the method proceeds to persist and return it as a success. -/
def RatingService.CreateRating (st : Store) (userID serviceID : UUID) (score : Int)
    (newID : UUID) (now : Int) : Except String Rating × Store :=
  match st.getRatingByUserAndService userID serviceID with
  | some existingRating =>
    let updated :=
      match existingRating.UpdateScore score now with
      | .ok r => r
      | .error _ => existingRating
    match pgUpdateRating st updated with
    | .error e => (.error e, st)
    | .ok st' => (.ok updated, st')
  | none =>
    match NewRating userID serviceID score newID now with
    | .error e => (.error e, st)
    | .ok rating =>
      match st.insertRating rating with
      | .error e => (.error e, st)
      | .ok st' => (.ok rating, st')

/-- RatingService.UpdateRating (here the UpdateScore error is checked). -/
def RatingService.UpdateRating (st : Store) (id : UUID) (score : Int) (now : Int) :
    Except String Rating × Store :=
  match st.getRatingByID id with
  | none => (.error "rating not found", st)
  | some rating =>
    match rating.UpdateScore score now with
    | .error e => (.error e, st)
    | .ok r =>
      match pgUpdateRating st r with
      | .error e => (.error e, st)
      | .ok st' => (.ok r, st')

/-- RatingService.GetAverageRating delegates to the aggregate query. -/
def RatingService.GetAverageRating (st : Store) (serviceID : UUID) : AverageRating :=
  st.CalculateAverageRating serviceID

/-- RatingService.CreateReview: the rating must exist (else "rating not
found") and must belong to the supplied user and service (else the distinct
ownership-mismatch error); only then is the review built and persisted. -/
def RatingService.CreateReview (st : Store) (userID serviceID ratingID : UUID)
    (title content : String) (newID : UUID) (now : Int) : Except String Review × Store :=
  match st.getRatingByID ratingID with
  | none => (.error "rating not found", st)
  | some rating =>
    if rating.UserID ≠ userID ∨ rating.ServiceID ≠ serviceID then
      (.error "rating doesn\u0027t match user or service", st)
    else
      match NewReview userID serviceID ratingID title content newID now with
      | .error e => (.error e, st)
      | .ok review =>
        match st.insertReview review with
        | .error e => (.error e, st)
        | .ok st' => (.ok review, st')

/-- RatingService.UpdateReview: fetches the review joined with its rating,
converts back to a plain review, revalidates title/content, and persists.
No ownership re-check. -/
def RatingService.UpdateReview (st : Store) (id : UUID) (title content : String)
    (now : Int) : Except String Review × Store :=
  match st.getReviewWithRatingByID id with
  | none => (.error "review not found", st)
  | some reviewWithRating =>
    let review := reviewWithRating.review
    match review.UpdateContent title content now with
    | .error e => (.error e, st)
    | .ok rv => (.ok rv, st.updateReviewRow rv)

/-- RatingService.CreateComment: the review must exist (via the joined
lookup); no ownership restriction on the commenting user. -/
def RatingService.CreateComment (st : Store) (userID reviewID : UUID) (content : String)
    (newID : UUID) (now : Int) : Except String Comment × Store :=
  match st.getReviewWithRatingByID reviewID with
  | none => (.error "review not found", st)
  | some _ =>
    match NewComment userID reviewID content newID now with
    | .error e => (.error e, st)
    | .ok comment => (.ok comment, st.insertComment comment)

/-- RatingService.UpdateComment. -/
def RatingService.UpdateComment (st : Store) (id : UUID) (content : String) (now : Int) :
    Except String Comment × Store :=
  match st.getCommentByID id with
  | none => (.error "comment not found", st)
  | some comment =>
    match comment.UpdateContent content now with
    | .error e => (.error e, st)
    | .ok c => (.ok c, st.updateCommentRow c)

/-! ## Helper lemmas -/

theorem length_ordIns (le : α → α → Bool) (a : α) (l : List α) :
    (ordIns le a l).length = l.length + 1 := by
  induction l with
  | nil => rfl
  | cons b l ih => simp only [ordIns]; split <;> simp [ih]

theorem length_insSort (le : α → α → Bool) (l : List α) :
    (insSort le l).length = l.length := by
  induction l with
  | nil => rfl
  | cons a l ih => simp [insSort, length_ordIns, ih]

theorem length_sqlOrder (le : α → α → Bool) (d : Bool) (l : List α) :
    (sqlOrder le d l).length = l.length := by
  unfold sqlOrder; split <;> simp [length_insSort]

theorem length_sqlPage (l : List α) (limit offset : Int) :
    (sqlPage l limit offset).length = min limit.toNat (l.length - offset.toNat) := by
  simp [sqlPage, List.length_take, List.length_drop]

theorem length_filterMap_eq (f : α → Option β) (l : List α)
    (h : ∀ x ∈ l, (f x).isSome) : (l.filterMap f).length = l.length := by
  induction l with
  | nil => rfl
  | cons a l ih =>
    obtain ⟨b, hb⟩ := Option.isSome_iff_exists.mp (h a (List.mem_cons_self a l))
    simp [List.filterMap_cons, hb, ih fun x hx => h x (List.mem_cons_of_mem a hx)]

/-- Under the reviews→ratings foreign key, the join drops no review row. -/
theorem reviewRows_length (st : Store) (sid : UUID) (h : st.reviewsHaveRatings) :
    (st.reviewRowsForService sid).length
      = (st.reviews.filter fun rv => rv.ServiceID == sid).length := by
  unfold Store.reviewRowsForService
  apply length_filterMap_eq
  intro rv hrv
  obtain ⟨rt, hrt, hid⟩ := h rv (List.mem_filter.mp hrv).1
  cases hEq : st.ratings.find? fun x => x.ID == rv.RatingID with
  | some rt' => simp [hEq]
  | none =>
    rw [List.find?_eq_none] at hEq
    exact absurd (by simp [hid]) (hEq rt hrt)

/-- With the pair-uniqueness constraint, a successful lookup by pair means the
pair filter is exactly that one row. -/
theorem find?_pair_filter (u s : UUID) (l : List Rating) (e : Rating)
    (hU : ratingsUniquePerPair l)
    (hf : l.find? (fun r => r.UserID == u && r.ServiceID == s) = some e) :
    l.filter (fun r => r.UserID == u && r.ServiceID == s) = [e] := by
  induction l with
  | nil => simp at hf
  | cons a l ih =>
    by_cases hpa : (fun r : Rating => r.UserID == u && r.ServiceID == s) a = true
    · rw [List.find?_cons_of_pos l hpa] at hf
      have hea : a = e := by simpa using hf
      subst hea
      rw [@List.filter_cons_of_pos _ (fun r : Rating => r.UserID == u && r.ServiceID == s) a l hpa]
      have hnil : List.filter (fun r : Rating => r.UserID == u && r.ServiceID == s) l = [] := by
        rw [List.filter_eq_nil_iff]
        intro x hx hpx
        have hfst := (List.pairwise_cons.mp hU).1 x hx
        simp only [Bool.and_eq_true, beq_iff_eq] at hpa hpx
        exact hfst ⟨hpa.1.trans hpx.1.symm, hpa.2.trans hpx.2.symm⟩
      rw [hnil]
    · rw [List.find?_cons_of_neg l hpa] at hf
      rw [@List.filter_cons_of_neg _ (fun r : Rating => r.UserID == u && r.ServiceID == s) a l hpa]
      exact ih (List.pairwise_cons.mp hU).2 hf

/-- The UPDATE of a rating row touches only score and updated_at, so the pair
filter commutes with it. -/
theorem filter_updateRows (u s : UUID) (r : Rating) (l : List Rating) :
    ((l.map fun x =>
        if x.ID == r.ID then { x with Score := r.Score, UpdatedAt := r.UpdatedAt } else x).filter
        fun x => x.UserID == u && x.ServiceID == s)
      = (l.filter fun x => x.UserID == u && x.ServiceID == s).map
          fun x => if x.ID == r.ID then { x with Score := r.Score, UpdatedAt := r.UpdatedAt }
            else x := by
  rw [List.filter_map]
  congr 1
  apply List.filter_congr
  intro x hx
  by_cases h : (x.ID == r.ID) = true <;> simp [Function.comp, h]

/-- Updating score and updated_at preserves the pair-uniqueness invariant. -/
theorem pairwise_updateRows (r : Rating) (l : List Rating) (hU : ratingsUniquePerPair l) :
    ratingsUniquePerPair (l.map fun x =>
      if x.ID == r.ID then { x with Score := r.Score, UpdatedAt := r.UpdatedAt } else x) := by
  unfold ratingsUniquePerPair at *
  rw [List.pairwise_map]
  apply hU.imp
  intro a b hab
  by_cases ha : (a.ID == r.ID) = true <;> by_cases hb : (b.ID == r.ID) = true <;>
    simpa [ha, hb] using hab

/-- Appending a row whose pair is absent preserves pair-uniqueness. -/
theorem pairwise_append_new (l : List Rating) (r : Rating)
    (hU : ratingsUniquePerPair l)
    (habs : ∀ x ∈ l, ¬(x.UserID = r.UserID ∧ x.ServiceID = r.ServiceID)) :
    ratingsUniquePerPair (l ++ [r]) := by
  unfold ratingsUniquePerPair at *
  rw [List.pairwise_append]
  refine ⟨hU, List.pairwise_singleton _ _, fun a ha b hb => ?_⟩
  simp only [List.mem_singleton] at hb
  subst hb
  exact habs a ha

/-- A successful NewRating is the literal record, and the inputs passed its
checks. -/
theorem newRating_ok (u s : UUID) (score : Int) (newID : UUID) (now : Int) (r : Rating)
    (h : NewRating u s score newID now = .ok r) :
    r = ⟨newID, u, s, score, now, now⟩ ∧ u ≠ UUID.nil ∧ s ≠ UUID.nil
      ∧ 1 ≤ score ∧ score ≤ 5 := by
  unfold NewRating at h
  split at h
  · simp at h
  · split at h
    · simp at h
    · split at h
      · simp at h
      · rename_i h1 h2 h3
        refine ⟨by simpa using h.symm, h1, h2, ?_, ?_⟩ <;> omega

/-- An in-range score always passes UpdateScore. -/
theorem updateScore_ok (r : Rating) (score : Int) (now : Int)
    (h1 : 1 ≤ score) (h5 : score ≤ 5) :
    r.UpdateScore score now = .ok { r with Score := score, UpdatedAt := now } := by
  unfold Rating.UpdateScore
  rw [if_neg]
  omega

/-- Characterization of a successful CreateRating with an in-range score:
after the call the pair filter of the store is exactly the returned rating,
whose score is the requested one; the invariant is preserved and the other
tables are untouched. -/
theorem createRating_ok_spec (st : Store) (u s : UUID) (score : Int) (newID : UUID)
    (now : Int) (r : Rating) (st' : Store)
    (hU : ratingsUniquePerPair st.ratings)
    (h1 : 1 ≤ score) (h5 : score ≤ 5)
    (hok : RatingService.CreateRating st u s score newID now = (.ok r, st')) :
    st'.ratings.filter (fun x => x.UserID == u && x.ServiceID == s) = [r]
      ∧ r.Score = score
      ∧ ratingsUniquePerPair st'.ratings
      ∧ st'.reviews = st.reviews ∧ st'.comments = st.comments := by
  unfold RatingService.CreateRating at hok
  cases hfind : st.getRatingByUserAndService u s with
  | some existing =>
    simp only [hfind, updateScore_ok existing score now h1 h5, pgUpdateRating,
      Prod.mk.injEq, Except.ok.injEq] at hok
    obtain ⟨hr, hst⟩ := hok
    subst hr
    subst hst
    unfold Store.getRatingByUserAndService at hfind
    refine ⟨?_, rfl, pairwise_updateRows _ _ hU, rfl, rfl⟩
    show (st.ratings.map _).filter _ = _
    rw [filter_updateRows, find?_pair_filter u s st.ratings existing hU hfind]
    simp
  | none =>
    simp only [hfind] at hok
    cases hnew : NewRating u s score newID now with
    | error e => simp only [hnew] at hok; simp at hok
    | ok rating =>
      simp only [hnew] at hok
      obtain ⟨hrec, hu, hs, -, -⟩ := newRating_ok u s score newID now rating hnew
      subst hrec
      unfold Store.getRatingByUserAndService at hfind
      have hnone := List.find?_eq_none.mp hfind
      have hany : (st.ratings.any fun x =>
          x.UserID == (⟨newID, u, s, score, now, now⟩ : Rating).UserID
            && x.ServiceID == (⟨newID, u, s, score, now, now⟩ : Rating).ServiceID) = false := by
        rw [List.any_eq_false]
        intro x hx
        simpa using hnone x hx
      simp only [Store.insertRating, hany, Bool.false_eq_true, if_false,
        Prod.mk.injEq, Except.ok.injEq] at hok
      obtain ⟨hr, hst⟩ := hok
      subst hr
      subst hst
      have hfilter : st.ratings.filter
          (fun x => x.UserID == u && x.ServiceID == s) = [] :=
        List.filter_eq_nil_iff.mpr hnone
      refine ⟨?_, rfl, ?_, rfl, rfl⟩
      · show (st.ratings ++ _).filter _ = _
        rw [List.filter_append, hfilter]
        simp
      · exact pairwise_append_new st.ratings _ hU fun x hx => by
          simpa using hnone x hx

/-- CreateRating preserves pair-uniqueness in every branch, for every score. -/
theorem createRating_preserves_unique (st : Store) (u s : UUID) (score : Int)
    (newID : UUID) (now : Int) (hU : ratingsUniquePerPair st.ratings) :
    ratingsUniquePerPair (RatingService.CreateRating st u s score newID now).2.ratings := by
  unfold RatingService.CreateRating
  cases st.getRatingByUserAndService u s with
  | some existing =>
    dsimp only
    cases existing.UpdateScore score now with
    | ok r => exact pairwise_updateRows _ _ hU
    | error e => exact pairwise_updateRows _ _ hU
  | none =>
    dsimp only
    cases NewRating u s score newID now with
    | error e => exact hU
    | ok rating =>
      dsimp only [Store.insertRating]
      by_cases hany : (st.ratings.any fun x =>
          x.UserID == rating.UserID && x.ServiceID == rating.ServiceID) = true
      · simp only [hany, if_true]
        exact hU
      · simp only [hany, if_false]
        refine pairwise_append_new st.ratings rating hU fun x hx hpair => ?_
        simp only [Bool.not_eq_true, List.any_eq_false] at hany
        have hfalse := hany x hx
        rw [hpair.1, hpair.2] at hfalse
        simp at hfalse

/-- UpdateRating preserves pair-uniqueness in every branch. -/
theorem updateRating_preserves_unique (st : Store) (id : UUID) (score : Int) (now : Int)
    (hU : ratingsUniquePerPair st.ratings) :
    ratingsUniquePerPair (RatingService.UpdateRating st id score now).2.ratings := by
  unfold RatingService.UpdateRating
  cases st.getRatingByID id with
  | none => exact hU
  | some rating =>
    dsimp only
    cases rating.UpdateScore score now with
    | error e => exact hU
    | ok r => exact pairwise_updateRows _ _ hU

/-- CreateReview never touches the ratings table. -/
theorem createReview_ratings_unchanged (st : Store) (u s rid : UUID) (t c : String)
    (newID : UUID) (now : Int) :
    (RatingService.CreateReview st u s rid t c newID now).2.ratings = st.ratings := by
  unfold RatingService.CreateReview
  cases st.getRatingByID rid with
  | none => rfl
  | some rating =>
    dsimp only
    by_cases hmatch : rating.UserID ≠ u ∨ rating.ServiceID ≠ s
    · simp only [if_pos hmatch]
    · simp only [if_neg hmatch]
      cases NewReview u s rid t c newID now with
      | error e => rfl
      | ok rv =>
        dsimp only [Store.insertReview]
        by_cases hany : (st.reviews.any fun x => x.RatingID == rv.RatingID) = true
        · simp [hany]
        · simp [hany]

/-- UpdateReview never touches the ratings table. -/
theorem updateReview_ratings_unchanged (st : Store) (id : UUID) (t c : String) (now : Int) :
    (RatingService.UpdateReview st id t c now).2.ratings = st.ratings := by
  unfold RatingService.UpdateReview
  cases st.getReviewWithRatingByID id with
  | none => rfl
  | some rwr =>
    dsimp only
    cases rwr.review.UpdateContent t c now with
    | error e => rfl
    | ok rv => rfl

/-- CreateComment never touches the ratings table. -/
theorem createComment_ratings_unchanged (st : Store) (u rid : UUID) (c : String)
    (newID : UUID) (now : Int) :
    (RatingService.CreateComment st u rid c newID now).2.ratings = st.ratings := by
  unfold RatingService.CreateComment
  cases st.getReviewWithRatingByID rid with
  | none => rfl
  | some rwr =>
    dsimp only
    cases NewComment u rid c newID now with
    | error e => rfl
    | ok cm => rfl

/-- UpdateComment never touches the ratings table. -/
theorem updateComment_ratings_unchanged (st : Store) (id : UUID) (c : String) (now : Int) :
    (RatingService.UpdateComment st id c now).2.ratings = st.ratings := by
  unfold RatingService.UpdateComment
  cases st.getCommentByID id with
  | none => rfl
  | some cm =>
    dsimp only
    cases cm.UpdateContent c now with
    | error e => rfl
    | ok c2 => rfl

/-- When page and limit are already positive, NewPagination keeps them. -/
theorem newPagination_pos (page limit : Int) (hp : 1 ≤ page) (hl : 1 ≤ limit) :
    NewPagination page limit = ⟨page, limit⟩ := by
  unfold NewPagination
  rw [if_neg (by omega), if_neg (by omega)]

/-- A nonnegative GetOffset with a positive limit forces page ≥ 1. -/
theorem page_pos_of_offset_nonneg (p : PaginationParams)
    (hL : 0 < p.GetLimit) (hO : 0 ≤ p.GetOffset) : 1 ≤ p.Page := by
  unfold PaginationParams.GetLimit at hL
  unfold PaginationParams.GetOffset at hO
  nlinarith

/-- The paging of the MySQL list queries agrees with the getters whenever the
getters report a positive limit and nonnegative offset. -/
theorem mysql_paging_eq (p : PaginationParams)
    (hL : 0 < p.GetLimit) (hO : 0 ≤ p.GetOffset) :
    (NewPagination p.GetPage p.GetLimit).GetLimit = p.GetLimit
      ∧ (NewPagination p.GetPage p.GetLimit).GetOffset = p.GetOffset := by
  have hp : 1 ≤ p.Page := page_pos_of_offset_nonneg p hL hO
  rw [show p.GetPage = p.Page from rfl, show p.GetLimit = p.Limit from rfl]
  rw [newPagination_pos p.Page p.Limit hp (by exact hL)]
  exact ⟨rfl, rfl⟩

/-- A sort field whose lowercase form is outside the allow-list sanitizes to
created_at. -/
theorem sanitize_not_allowed (field : String)
    (h : ¬ strLower field ∈ allowedSortFields) :
    sanitizeSortField field = "created_at" := by
  unfold sanitizeSortField
  rw [if_neg]
  simpa using h

/-! ## Claim theorems -/

/-- C1: the spec demands that CreateRating succeed exactly when 1 ≤ score ≤ 5
in both branches.  The code violates this in the upsert branch: with a stored
rating of score 3 for the pair, CreateRating with the out-of-range score 6
succeeds and returns the stored rating unchanged, because the error returned
by UpdateScore is discarded; without a stored rating, the same score 6 is
rejected by NewRating.  The two conjuncts evaluate both branches. -/
theorem claim_C1_code_eval :
    RatingService.CreateRating ⟨[⟨10, 1, 2, 3, 0, 0⟩], [], []⟩ 1 2 6 99 5
        = (.ok ⟨10, 1, 2, 3, 0, 0⟩, ⟨[⟨10, 1, 2, 3, 0, 0⟩], [], []⟩)
      ∧ RatingService.CreateRating ⟨[], [], []⟩ 1 2 6 99 5
        = (.error "score must be between 1 and 5", ⟨[], [], []⟩) :=
  ⟨rfl, rfl⟩

/-- C3 counterexample: the params built by NewParamsWithOffset(10, 5, ...)
satisfy limit 10 > 0 and offset 5 ≥ 0, yet GetOffset() reports 0, not 5: the
constructor keeps only the derived page 5/10 + 1 = 1 and GetOffset
recomputes (1 − 1)·10 = 0. -/
theorem claim_C3_counterexample :
    (NewParamsWithOffset 10 5 "created_at" "asc").GetLimit = 10
      ∧ (NewParamsWithOffset 10 5 "created_at" "asc").GetOffset = 0
      ∧ (0 : Int) ≠ 5 := by
  refine ⟨by decide, by decide, by decide⟩

/-- C3 (amended): for limit > 0 and offset ≥ 0, NewParamsWithOffset reports
GetLimit() = limit but GetOffset() = (offset / limit) · limit, the offset
rounded down to a page boundary (equal to the requested offset exactly when
limit divides it); and for equivalent page/offset values the two constructors
build identical params values. -/
theorem claim_C3 : ∀ (limit offset : Int) (sortBy sortDirection : String),
    0 < limit → 0 ≤ offset →
    (NewParamsWithOffset limit offset sortBy sortDirection).GetLimit = limit
      ∧ (NewParamsWithOffset limit offset sortBy sortDirection).GetOffset
          = offset / limit * limit
      ∧ ∀ page : Int, 1 ≤ page →
          NewParams page limit sortBy sortDirection
            = NewParamsWithOffset limit ((page - 1) * limit) sortBy sortDirection := by
  intro limit offset sortBy sortDirection hl ho
  have h1 : ¬ limit ≤ 0 := by omega
  have h2 : ¬ offset < 0 := by omega
  refine ⟨?_, ?_, ?_⟩
  · simp only [NewParamsWithOffset, PaginationParams.GetLimit]
    rw [if_neg h1]
  · simp only [NewParamsWithOffset, PaginationParams.GetOffset]
    rw [if_neg h1, if_neg h2]
    by_cases hpos : offset > 0 ∧ limit > 0
    · rw [if_pos hpos]
      ring
    · have hoz : offset = 0 := by omega
      subst hoz
      rw [if_neg hpos]
      simp
  · intro page hp
    have h3 : ¬ page ≤ 0 := by omega
    have h4 : ¬ (page - 1) * limit < 0 := by nlinarith
    simp only [NewParams, NewParamsWithOffset]
    rw [if_neg h3, if_neg h1, if_neg h4]
    by_cases hpage1 : page = 1
    · subst hpage1
      rw [if_neg (show ¬((1 - 1) * limit > 0 ∧ limit > 0) by simp)]
    · rw [if_pos (show (page - 1) * limit > 0 ∧ limit > 0 from ⟨mul_pos (by omega) hl, hl⟩)]
      have hdiv : (page - 1) * limit / limit = page - 1 :=
        Int.mul_ediv_cancel _ (by omega)
      rw [hdiv]
      congr 1
      omega

/-- C3 witness: the amended claim applied at limit 10, offset 20, page 3. -/
theorem claim_C3_witness :
    (NewParamsWithOffset 10 20 "score" "asc").GetLimit = 10
      ∧ (NewParamsWithOffset 10 20 "score" "asc").GetOffset = 20 / 10 * 10
      ∧ NewParams 3 10 "score" "asc" = NewParamsWithOffset 10 ((3 - 1) * 10) "score" "asc" := by
  have h := claim_C3 10 20 "score" "asc" (by decide) (by decide)
  exact ⟨h.1, h.2.1, h.2.2 3 (by decide)⟩

/-- C2: starting from any store satisfying the pair-uniqueness invariant,
CreateRating(u, s, 5) followed by CreateRating(u, s, 2), both succeeding,
leaves exactly one rating for the pair (u, s) and its score is 2; moreover
every service operation preserves the invariant — the two rating-writing
operations by construction, the review and comment operations because they
never touch the ratings table. -/
theorem claim_C2 :
    (∀ (st : Store) (u s i1 : UUID) (n1 : Int) (i2 : UUID) (n2 : Int)
        (r1 : Rating) (st1 : Store) (r2 : Rating) (st2 : Store),
      ratingsUniquePerPair st.ratings →
      RatingService.CreateRating st u s 5 i1 n1 = (.ok r1, st1) →
      RatingService.CreateRating st1 u s 2 i2 n2 = (.ok r2, st2) →
      st2.ratings.filter (fun x => x.UserID == u && x.ServiceID == s) = [r2]
        ∧ r2.Score = 2 ∧ ratingsUniquePerPair st2.ratings)
    ∧ (∀ (st : Store) (u s : UUID) (score : Int) (newID : UUID) (now : Int),
        ratingsUniquePerPair st.ratings →
        ratingsUniquePerPair (RatingService.CreateRating st u s score newID now).2.ratings)
    ∧ (∀ (st : Store) (id : UUID) (score : Int) (now : Int),
        ratingsUniquePerPair st.ratings →
        ratingsUniquePerPair (RatingService.UpdateRating st id score now).2.ratings)
    ∧ (∀ (st : Store) (u s rid : UUID) (t c : String) (newID : UUID) (now : Int),
        (RatingService.CreateReview st u s rid t c newID now).2.ratings = st.ratings)
    ∧ (∀ (st : Store) (id : UUID) (t c : String) (now : Int),
        (RatingService.UpdateReview st id t c now).2.ratings = st.ratings)
    ∧ (∀ (st : Store) (u rid : UUID) (c : String) (newID : UUID) (now : Int),
        (RatingService.CreateComment st u rid c newID now).2.ratings = st.ratings)
    ∧ (∀ (st : Store) (id : UUID) (c : String) (now : Int),
        (RatingService.UpdateComment st id c now).2.ratings = st.ratings) := by
  refine ⟨?_, createRating_preserves_unique, updateRating_preserves_unique,
    createReview_ratings_unchanged, updateReview_ratings_unchanged,
    createComment_ratings_unchanged, updateComment_ratings_unchanged⟩
  intro st u s i1 n1 i2 n2 r1 st1 r2 st2 hU h1 h2
  obtain ⟨-, -, hU1, -, -⟩ :=
    createRating_ok_spec st u s 5 i1 n1 r1 st1 hU (by omega) (by omega) h1
  obtain ⟨hf2, hs2, hU2, -, -⟩ :=
    createRating_ok_spec st1 u s 2 i2 n2 r2 st2 hU1 (by omega) (by omega) h2
  exact ⟨hf2, hs2, hU2⟩

/-- C2 witness: the concrete run from the empty store with u = 1, s = 2. -/
theorem claim_C2_witness :
    (⟨[⟨100, 1, 2, 2, 0, 1⟩], [], []⟩ : Store).ratings.filter
        (fun x => x.UserID == 1 && x.ServiceID == 2) = [⟨100, 1, 2, 2, 0, 1⟩]
      ∧ (⟨100, 1, 2, 2, 0, 1⟩ : Rating).Score = 2
      ∧ ratingsUniquePerPair (⟨[⟨100, 1, 2, 2, 0, 1⟩], [], []⟩ : Store).ratings := by
  have h := claim_C2.1 ⟨[], [], []⟩ 1 2 100 0 101 1
    ⟨100, 1, 2, 5, 0, 0⟩ ⟨[⟨100, 1, 2, 5, 0, 0⟩], [], []⟩
    ⟨100, 1, 2, 2, 0, 1⟩ ⟨[⟨100, 1, 2, 2, 0, 1⟩], [], []⟩
    (by unfold ratingsUniquePerPair; exact List.Pairwise.nil) rfl rfl
  exact h

/-- C7: CreateReview fails with the not-found error when no rating has the
given id; fails with the distinct ownership-mismatch error when the fetched
rating belongs to a different user or service — in both cases the store is
returned unchanged; and any successful call implies both checks passed and
exactly the new review was appended, with ratings and comments untouched. -/
theorem claim_C7 : ∀ (st : Store) (u s rid : UUID) (t c : String) (newID : UUID) (now : Int),
    (st.getRatingByID rid = none →
      RatingService.CreateReview st u s rid t c newID now = (.error "rating not found", st))
    ∧ (∀ rt, st.getRatingByID rid = some rt → rt.UserID ≠ u ∨ rt.ServiceID ≠ s →
        RatingService.CreateReview st u s rid t c newID now
          = (.error "rating doesn't match user or service", st))
    ∧ ("rating doesn't match user or service" ≠ "rating not found")
    ∧ (∀ (rv : Review) (st' : Store),
        RatingService.CreateReview st u s rid t c newID now = (.ok rv, st') →
        ∃ rt, st.getRatingByID rid = some rt ∧ rt.UserID = u ∧ rt.ServiceID = s
          ∧ st'.reviews = st.reviews ++ [rv] ∧ st'.ratings = st.ratings
          ∧ st'.comments = st.comments) := by
  intro st u s rid t c newID now
  refine ⟨?_, ?_, by decide, ?_⟩
  · intro h
    unfold RatingService.CreateReview
    rw [h]
  · intro rt hrt hmm
    unfold RatingService.CreateReview
    rw [hrt]
    dsimp only
    rw [if_pos hmm]
  · intro rv st' hok
    unfold RatingService.CreateReview at hok
    cases hfind : st.getRatingByID rid with
    | none => rw [hfind] at hok; simp at hok
    | some rt =>
      rw [hfind] at hok
      dsimp only at hok
      by_cases hmm : rt.UserID ≠ u ∨ rt.ServiceID ≠ s
      · rw [if_pos hmm] at hok
        simp at hok
      · rw [if_neg hmm] at hok
        push_neg at hmm
        cases hnew : NewReview u s rid t c newID now with
        | error e => rw [hnew] at hok; simp at hok
        | ok rv' =>
          rw [hnew] at hok
          dsimp only [Store.insertReview] at hok
          by_cases hany : (st.reviews.any fun x => x.RatingID == rv'.RatingID) = true
          · rw [if_pos hany] at hok
            simp at hok
          · rw [if_neg hany] at hok
            simp only [Prod.mk.injEq, Except.ok.injEq] at hok
            obtain ⟨hrv, hst⟩ := hok
            subst hrv
            subst hst
            exact ⟨rt, rfl, hmm.1, hmm.2, rfl, rfl, rfl⟩

/-- C7 witness: the not-found case on the empty store and the ownership
mismatch against a rating owned by user 7 (arguments claim user 1). -/
theorem claim_C7_witness :
    RatingService.CreateReview ⟨[], [], []⟩ 1 2 3 "t" "c" 9 0
        = (.error "rating not found", ⟨[], [], []⟩)
      ∧ RatingService.CreateReview ⟨[⟨3, 7, 2, 5, 0, 0⟩], [], []⟩ 1 2 3 "t" "c" 9 0
        = (.error "rating doesn't match user or service",
           ⟨[⟨3, 7, 2, 5, 0, 0⟩], [], []⟩) := by
  constructor
  · exact (claim_C7 ⟨[], [], []⟩ 1 2 3 "t" "c" 9 0).1 rfl
  · exact (claim_C7 ⟨[⟨3, 7, 2, 5, 0, 0⟩], [], []⟩ 1 2 3 "t" "c" 9 0).2.1
      ⟨3, 7, 2, 5, 0, 0⟩ rfl (by left; decide)

/-- C8 counterexample: in a store whose review 2 exists (with its rating) and
with the non-empty content "hi", CreateComment with the Nil UUID as userID
fails with a validation error instead of persisting the comment, refuting
the claim that the comment is persisted regardless of which user comments. -/
theorem claim_C8_counterexample :
    ((⟨[⟨1, 7, 2, 5, 0, 0⟩], [⟨2, 7, 2, 1, "t", "c", 0, 0⟩], []⟩ : Store).getReviewWithRatingByID
        2).isSome = true
      ∧ ("hi" : String) ≠ ""
      ∧ RatingService.CreateComment ⟨[⟨1, 7, 2, 5, 0, 0⟩], [⟨2, 7, 2, 1, "t", "c", 0, 0⟩], []⟩
          UUID.nil 2 "hi" 9 0
        = (.error "user ID cannot be empty",
           ⟨[⟨1, 7, 2, 5, 0, 0⟩], [⟨2, 7, 2, 1, "t", "c", 0, 0⟩], []⟩) := by
  refine ⟨rfl, by decide, rfl⟩

/-- C8 (amended): CreateComment fails with the not-found error and leaves the
store unchanged when the joined review lookup fails; when the review is
visible, the content is non-empty, and the identifiers are not the Nil UUID,
the comment is persisted for any commenting user — there is no ownership
restriction, only the Nil-UUID validation of NewComment. -/
theorem claim_C8 : ∀ (st : Store) (u rid : UUID) (c : String) (newID : UUID) (now : Int),
    (st.getReviewWithRatingByID rid = none →
      RatingService.CreateComment st u rid c newID now = (.error "review not found", st))
    ∧ (u ≠ UUID.nil → rid ≠ UUID.nil → c ≠ "" →
        (st.getReviewWithRatingByID rid).isSome = true →
        RatingService.CreateComment st u rid c newID now
          = (.ok ⟨newID, u, rid, c, now, now⟩,
             { st with comments := st.comments ++ [⟨newID, u, rid, c, now, now⟩] })) := by
  intro st u rid c newID now
  constructor
  · intro h
    unfold RatingService.CreateComment
    rw [h]
  · intro hu hrid hc hsome
    obtain ⟨rwr, hrwr⟩ := Option.isSome_iff_exists.mp hsome
    unfold RatingService.CreateComment
    rw [hrwr]
    dsimp only
    unfold NewComment
    rw [if_neg hu, if_neg hrid, if_neg hc]
    rfl

/-- C8 witness: the amended claim applied to a concrete store: user 9, who
owns nothing, comments on review 2 and the comment is appended. -/
theorem claim_C8_witness :
    RatingService.CreateComment ⟨[⟨1, 7, 2, 5, 0, 0⟩], [⟨2, 7, 2, 1, "t", "c", 0, 0⟩], []⟩
        9 2 "hi" 30 4
      = (.ok ⟨30, 9, 2, "hi", 4, 4⟩,
         ⟨[⟨1, 7, 2, 5, 0, 0⟩], [⟨2, 7, 2, 1, "t", "c", 0, 0⟩], [⟨30, 9, 2, "hi", 4, 4⟩]⟩) := by
  exact (claim_C8 ⟨[⟨1, 7, 2, 5, 0, 0⟩], [⟨2, 7, 2, 1, "t", "c", 0, 0⟩], []⟩
    9 2 "hi" 30 4).2 (by decide) (by decide) (by decide) rfl

/-- C9: the average-rating aggregate reports totalRatings equal to the number
of stored ratings of the service, an averageScore whose product with that
count is exactly the sum of the scores (hence the exact arithmetic mean
whenever the count is nonzero), and averageScore = 0 when the count is 0. -/
theorem claim_C9 : ∀ (st : Store) (sid : UUID),
    (RatingService.GetAverageRating st sid).TotalRatings
        = (st.ratings.filter fun r => r.ServiceID == sid).length
    ∧ (RatingService.GetAverageRating st sid).AverageScore
          * ((st.ratings.filter fun r => r.ServiceID == sid).length : ℚ)
        = ((((st.ratings.filter fun r => r.ServiceID == sid).map (·.Score)).sum : Int) : ℚ)
    ∧ ((st.ratings.filter fun r => r.ServiceID == sid).length = 0 →
        (RatingService.GetAverageRating st sid).AverageScore = 0) := by
  intro st sid
  unfold RatingService.GetAverageRating Store.CalculateAverageRating
  dsimp only
  rw [List.length_map]
  refine ⟨rfl, ?_, ?_⟩
  · by_cases h : (st.ratings.filter fun r => r.ServiceID == sid).length = 0
    · rw [if_pos h, List.length_eq_zero.mp h]
      simp
    · rw [if_neg h, div_mul_cancel₀]
      exact Nat.cast_ne_zero.mpr h
  · intro h
    rw [if_pos h]

/-- C9 witness: for a service with the three ratings {5, 3, 4} the aggregate
reports totalRatings = 3 and averageScore with averageScore · 3 = 12, i.e.
exactly 4; and for a service with no ratings it reports (0, 0). -/
theorem claim_C9_witness :
    (RatingService.GetAverageRating
        ⟨[⟨1, 1, 7, 5, 0, 0⟩, ⟨2, 2, 7, 3, 0, 0⟩, ⟨3, 3, 7, 4, 0, 0⟩], [], []⟩ 7).TotalRatings = 3
    ∧ (RatingService.GetAverageRating
        ⟨[⟨1, 1, 7, 5, 0, 0⟩, ⟨2, 2, 7, 3, 0, 0⟩, ⟨3, 3, 7, 4, 0, 0⟩], [], []⟩ 7).AverageScore
        * (3 : ℚ) = 12
    ∧ (RatingService.GetAverageRating ⟨[], [], []⟩ 9).TotalRatings = 0
    ∧ (RatingService.GetAverageRating ⟨[], [], []⟩ 9).AverageScore = 0 := by
  obtain ⟨h1, h2, -⟩ := claim_C9
    ⟨[⟨1, 1, 7, 5, 0, 0⟩, ⟨2, 2, 7, 3, 0, 0⟩, ⟨3, 3, 7, 4, 0, 0⟩], [], []⟩ 7
  obtain ⟨h3, -, h4⟩ := claim_C9 ⟨[], [], []⟩ 9
  refine ⟨h1.trans (by rfl), ?_, h3.trans (by rfl), h4 (by rfl)⟩
  calc (RatingService.GetAverageRating
        ⟨[⟨1, 1, 7, 5, 0, 0⟩, ⟨2, 2, 7, 3, 0, 0⟩, ⟨3, 3, 7, 4, 0, 0⟩], [], []⟩ 7).AverageScore
        * (3 : ℚ)
      = (RatingService.GetAverageRating
        ⟨[⟨1, 1, 7, 5, 0, 0⟩, ⟨2, 2, 7, 3, 0, 0⟩, ⟨3, 3, 7, 4, 0, 0⟩], [], []⟩ 7).AverageScore
        * (((List.filter (fun r => r.ServiceID == 7)
            (⟨[⟨1, 1, 7, 5, 0, 0⟩, ⟨2, 2, 7, 3, 0, 0⟩, ⟨3, 3, 7, 4, 0, 0⟩], [], []⟩ : Store).ratings).length : Nat) : ℚ) := by
        norm_num
    _ = 12 := by rw [h2]; norm_num

/-- C10: every entity constructor rejects the Nil UUID in any identifier
position with the matching validation error, and consequently CreateRating
with a Nil identifier fails and leaves the store unchanged whenever no
rating already exists for the pair. -/
theorem claim_C10 : ∀ (st : Store) (u s rid rvid : UUID) (score : Int) (t c : String)
    (newID : UUID) (now : Int),
    (NewRating UUID.nil s score newID now = .error "user ID cannot be empty")
    ∧ (u ≠ UUID.nil → NewRating u UUID.nil score newID now
        = .error "service ID cannot be empty")
    ∧ (NewReview UUID.nil s rid t c newID now = .error "user ID cannot be empty")
    ∧ (u ≠ UUID.nil → NewReview u UUID.nil rid t c newID now
        = .error "service ID cannot be empty")
    ∧ (u ≠ UUID.nil → s ≠ UUID.nil → NewReview u s UUID.nil t c newID now
        = .error "rating ID cannot be empty")
    ∧ (NewComment UUID.nil rvid c newID now = .error "user ID cannot be empty")
    ∧ (u ≠ UUID.nil → NewComment u UUID.nil c newID now
        = .error "review ID cannot be empty")
    ∧ (st.getRatingByUserAndService u s = none → u = UUID.nil ∨ s = UUID.nil →
        ∃ e, RatingService.CreateRating st u s score newID now = (.error e, st)) := by
  intro st u s rid rvid score t c newID now
  refine ⟨?_, ?_, ?_, ?_, ?_, ?_, ?_, ?_⟩
  · unfold NewRating
    rw [if_pos rfl]
  · intro hu
    unfold NewRating
    rw [if_neg hu, if_pos rfl]
  · unfold NewReview
    rw [if_pos rfl]
  · intro hu
    unfold NewReview
    rw [if_neg hu, if_pos rfl]
  · intro hu hs
    unfold NewReview
    rw [if_neg hu, if_neg hs, if_pos rfl]
  · unfold NewComment
    rw [if_pos rfl]
  · intro hu
    unfold NewComment
    rw [if_neg hu, if_pos rfl]
  · intro hfind hnil
    unfold RatingService.CreateRating
    rw [hfind]
    dsimp only
    cases hnil with
    | inl hu =>
      subst hu
      unfold NewRating
      rw [if_pos rfl]
      exact ⟨"user ID cannot be empty", rfl⟩
    | inr hs =>
      subst hs
      unfold NewRating
      by_cases hu : u = UUID.nil
      · rw [if_pos hu]
        exact ⟨"user ID cannot be empty", rfl⟩
      · rw [if_neg hu, if_pos rfl]
        exact ⟨"service ID cannot be empty", rfl⟩

/-- C10 witness: the constructor rejections and the CreateRating failure at
concrete arguments with the Nil user. -/
theorem claim_C10_witness :
    NewRating UUID.nil 2 4 9 0 = .error "user ID cannot be empty"
    ∧ NewComment 1 UUID.nil "hi" 9 0 = .error "review ID cannot be empty"
    ∧ ∃ e, RatingService.CreateRating ⟨[], [], []⟩ UUID.nil 2 4 9 0 = (.error e, ⟨[], [], []⟩) := by
  obtain ⟨h1, -, -, -, -, -, h7, h8⟩ := claim_C10 ⟨[], [], []⟩ UUID.nil 2 3 4 4 "t" "c" 9 0
  refine ⟨h1, ?_, h8 rfl (Or.inl rfl)⟩
  obtain ⟨-, -, -, -, -, -, h7b, -⟩ := claim_C10 ⟨[], [], []⟩ 1 2 3 4 4 "t" "hi" 9 0
  exact h7b (by decide)

/-- The page of any ordered, filtered query has min(limit, length − offset)
rows. -/
theorem paged_length (le : α → α → Bool) (d : Bool) (l : List α) (limit offset : Int) :
    (sqlPage (sqlOrder le d l) limit offset).length
      = min limit.toNat (l.length - offset.toNat) := by
  rw [length_sqlPage, length_sqlOrder]

/-- C4 counterexample: on a store with two ratings for service 7 — one with
score 5 created at time 20, one with score 1 created at time 10 — the request
sorted by score ascending returns the rows in opposite orders from the two
backends (Postgres honors the sort, MySQL ignores it and uses created_at
descending), and updating a rating absent from the store fails on MySQL but
succeeds on Postgres.  The backends are therefore not behaviorally identical
up to the listed cosmetic differences. -/
theorem claim_C4_counterexample :
    pgGetRatingsByService ⟨[⟨1, 1, 7, 5, 20, 20⟩, ⟨2, 2, 7, 1, 10, 10⟩], [], []⟩ 7
        (NewParamsWithOffset 10 0 "score" "asc")
      = .ok ([⟨2, 2, 7, 1, 10, 10⟩, ⟨1, 1, 7, 5, 20, 20⟩], 2)
    ∧ mysqlGetRatingsByService ⟨[⟨1, 1, 7, 5, 20, 20⟩, ⟨2, 2, 7, 1, 10, 10⟩], [], []⟩ 7
        (NewParamsWithOffset 10 0 "score" "asc")
      = .ok ([⟨1, 1, 7, 5, 20, 20⟩, ⟨2, 2, 7, 1, 10, 10⟩], 2)
    ∧ ([⟨2, 2, 7, 1, 10, 10⟩, ⟨1, 1, 7, 5, 20, 20⟩] : List Rating)
        ≠ [⟨1, 1, 7, 5, 20, 20⟩, ⟨2, 2, 7, 1, 10, 10⟩]
    ∧ mysqlUpdateRating ⟨[], [], []⟩ ⟨1, 1, 7, 5, 0, 0⟩ = .error "rating not found"
    ∧ pgUpdateRating ⟨[], [], []⟩ ⟨1, 1, 7, 5, 0, 0⟩ = .ok ⟨[], [], []⟩ := by
  refine ⟨rfl, rfl, by decide, rfl, rfl⟩

/-- C4 (amended): for params carrying no explicit sortBy and built with a
positive page and limit (as both constructors guarantee), the MySQL and
Postgres implementations of the three list operations return the same items
in the same order and the same totalCount; in general the backends differ:
MySQL ignores sortBy/sortDirection, and its UpdateRating reports a missing
row as an error where Postgres reports success. -/
theorem claim_C4 : ∀ (st : Store) (id : UUID) (p : PaginationParams),
    p.SortBy = "" → 1 ≤ p.Page → 1 ≤ p.Limit →
    mysqlGetRatingsByService st id p = pgGetRatingsByService st id p
    ∧ mysqlGetReviewsByService st id p = pgGetReviewsByService st id p
    ∧ mysqlGetCommentsByReview st id p = pgGetCommentsByReview st id p := by
  intro st id p hSB hp hl
  have hnp : NewPagination p.GetPage p.GetLimit = ⟨p.Page, p.Limit⟩ :=
    newPagination_pos p.Page p.Limit hp hl
  have hcond : ¬(p.GetSortBy ≠ "") := fun h => h hSB
  refine ⟨?_, ?_, ?_⟩
  · unfold mysqlGetRatingsByService pgGetRatingsByService
    rw [hnp, if_neg hcond]
    rfl
  · unfold mysqlGetReviewsByService pgGetReviewsByService
    rw [hnp, if_neg hcond]
    rfl
  · unfold mysqlGetCommentsByReview pgGetCommentsByReview
    rw [hnp, if_neg hcond]
    rfl

/-- C4 witness: the amended equivalence at a concrete store and default-sort
params. -/
theorem claim_C4_witness :
    mysqlGetRatingsByService ⟨[⟨1, 1, 7, 5, 20, 20⟩, ⟨2, 2, 7, 1, 10, 10⟩], [], []⟩ 7
        ⟨1, 10, "", "desc"⟩
      = pgGetRatingsByService ⟨[⟨1, 1, 7, 5, 20, 20⟩, ⟨2, 2, 7, 1, 10, 10⟩], [], []⟩ 7
        ⟨1, 10, "", "desc"⟩ :=
  (claim_C4 ⟨[⟨1, 1, 7, 5, 20, 20⟩, ⟨2, 2, 7, 1, 10, 10⟩], [], []⟩ 7 ⟨1, 10, "", "desc"⟩
    rfl (by decide) (by decide)).1

/-- C6 counterexample, two parts.  First, comments: with two comments on
review 2 created at times 10 and 20, the unrecognized field "bogus" with the
defaulted direction gives the created_at-descending page, while "created_at"
in the default comment direction (ascending) gives the opposite page.
Second, ratings: "SCORE" is outside the literal allow-list (matching is
case-insensitive), yet with direction "desc" it gives the score-descending
page, not the created_at-descending page. -/
theorem claim_C6_counterexample :
    pgGetCommentsByReview
        ⟨[⟨1, 1, 7, 4, 1, 1⟩], [⟨2, 1, 7, 1, "t", "c", 1, 1⟩],
         [⟨3, 9, 2, "one", 10, 10⟩, ⟨4, 8, 2, "two", 20, 20⟩]⟩ 2
        (NewParamsWithOffset 10 0 "bogus" "")
      = .ok ([⟨4, 8, 2, "two", 20, 20⟩, ⟨3, 9, 2, "one", 10, 10⟩], 2)
    ∧ pgGetCommentsByReview
        ⟨[⟨1, 1, 7, 4, 1, 1⟩], [⟨2, 1, 7, 1, "t", "c", 1, 1⟩],
         [⟨3, 9, 2, "one", 10, 10⟩, ⟨4, 8, 2, "two", 20, 20⟩]⟩ 2
        (NewParamsWithOffset 10 0 "created_at" "asc")
      = .ok ([⟨3, 9, 2, "one", 10, 10⟩, ⟨4, 8, 2, "two", 20, 20⟩], 2)
    ∧ ([⟨4, 8, 2, "two", 20, 20⟩, ⟨3, 9, 2, "one", 10, 10⟩] : List Comment)
        ≠ [⟨3, 9, 2, "one", 10, 10⟩, ⟨4, 8, 2, "two", 20, 20⟩]
    ∧ ¬ "bogus" ∈ allowedSortFields
    ∧ pgGetRatingsByService ⟨[⟨1, 1, 7, 5, 10, 10⟩, ⟨2, 2, 7, 1, 20, 20⟩], [], []⟩ 7
        (NewParamsWithOffset 10 0 "SCORE" "desc")
      = .ok ([⟨1, 1, 7, 5, 10, 10⟩, ⟨2, 2, 7, 1, 20, 20⟩], 2)
    ∧ pgGetRatingsByService ⟨[⟨1, 1, 7, 5, 10, 10⟩, ⟨2, 2, 7, 1, 20, 20⟩], [], []⟩ 7
        (NewParamsWithOffset 10 0 "created_at" "desc")
      = .ok ([⟨2, 2, 7, 1, 20, 20⟩, ⟨1, 1, 7, 5, 10, 10⟩], 2)
    ∧ ¬ "SCORE" ∈ allowedSortFields
    ∧ ([⟨1, 1, 7, 5, 10, 10⟩, ⟨2, 2, 7, 1, 20, 20⟩] : List Rating)
        ≠ [⟨2, 2, 7, 1, 20, 20⟩, ⟨1, 1, 7, 5, 10, 10⟩] := by
  refine ⟨rfl, rfl, by decide, by decide, rfl, rfl, by decide, by decide⟩

/-- C6 (amended): a non-empty sortBy whose lowercase form is outside the
allow-list behaves identically to sorting by "created_at" in the requested
(normalized) sort direction — not in the operation-specific default
direction; the operation default order applies only when sortBy is empty,
and allow-list matching is case-insensitive. -/
theorem claim_C6 : ∀ (st : Store) (id : UUID) (p : PaginationParams),
    p.SortBy ≠ "" → ¬ strLower p.SortBy ∈ allowedSortFields →
    pgGetRatingsByService st id p
        = pgGetRatingsByService st id ⟨p.Page, p.Limit, "created_at", p.SortDirection⟩
    ∧ pgGetReviewsByService st id p
        = pgGetReviewsByService st id ⟨p.Page, p.Limit, "created_at", p.SortDirection⟩
    ∧ pgGetCommentsByReview st id p
        = pgGetCommentsByReview st id ⟨p.Page, p.Limit, "created_at", p.SortDirection⟩ := by
  intro st id p h1 h2
  have hsan : sanitizeSortField p.GetSortBy = "created_at" := sanitize_not_allowed _ h2
  have hsan2 : sanitizeSortField
      (PaginationParams.GetSortBy ⟨p.Page, p.Limit, "created_at", p.SortDirection⟩)
      = "created_at" := rfl
  have hc1 : p.GetSortBy ≠ "" := h1
  have hc2 : PaginationParams.GetSortBy ⟨p.Page, p.Limit, "created_at", p.SortDirection⟩
      ≠ "" := by
    rw [show PaginationParams.GetSortBy
      ⟨p.Page, p.Limit, "created_at", p.SortDirection⟩ = "created_at" from rfl]
    decide
  refine ⟨?_, ?_, ?_⟩
  · unfold pgGetRatingsByService
    rw [if_pos hc1, if_pos hc2, hsan, hsan2]
    rfl
  · unfold pgGetReviewsByService
    rw [if_pos hc1, if_pos hc2, hsan, hsan2]
    rfl
  · unfold pgGetCommentsByReview
    rw [if_pos hc1, if_pos hc2, hsan, hsan2]
    rfl

/-- C6 witness: the amended claim at the comment store of the counterexample:
"bogus" and "created_at" give the same page under the same direction. -/
theorem claim_C6_witness :
    pgGetCommentsByReview
        ⟨[⟨1, 1, 7, 4, 1, 1⟩], [⟨2, 1, 7, 1, "t", "c", 1, 1⟩],
         [⟨3, 9, 2, "one", 10, 10⟩, ⟨4, 8, 2, "two", 20, 20⟩]⟩ 2 ⟨1, 10, "bogus", "desc"⟩
      = pgGetCommentsByReview
        ⟨[⟨1, 1, 7, 4, 1, 1⟩], [⟨2, 1, 7, 1, "t", "c", 1, 1⟩],
         [⟨3, 9, 2, "one", 10, 10⟩, ⟨4, 8, 2, "two", 20, 20⟩]⟩ 2 ⟨1, 10, "created_at", "desc"⟩ :=
  (claim_C6 ⟨[⟨1, 1, 7, 4, 1, 1⟩], [⟨2, 1, 7, 1, "t", "c", 1, 1⟩],
    [⟨3, 9, 2, "one", 10, 10⟩, ⟨4, 8, 2, "two", 20, 20⟩]⟩ 2 ⟨1, 10, "bogus", "desc"⟩
    (by decide) (by decide)).2.2

/-- C5 counterexample: params with GetLimit = 10 > 0 and GetOffset = 0 ≥ 0
but sortBy = "title" make the Postgres ratings list fail with an
undefined-column error — the shared allow-list admits "title", which is not a
column of the ratings table — instead of returning the min(10, 1) = 1 row
the claim demands. -/
theorem claim_C5_counterexample :
    (⟨1, 10, "title", "desc"⟩ : PaginationParams).GetLimit = 10
    ∧ (⟨1, 10, "title", "desc"⟩ : PaginationParams).GetOffset = 0
    ∧ ((⟨[⟨1, 1, 7, 5, 0, 0⟩], [], []⟩ : Store).ratings.filter
        fun r => r.ServiceID == 7).length = 1
    ∧ pgGetRatingsByService ⟨[⟨1, 1, 7, 5, 0, 0⟩], [], []⟩ 7 ⟨1, 10, "title", "desc"⟩
        = .error "column does not exist" := by
  refine ⟨by decide, by decide, by decide, rfl⟩

/-- C5 (amended): with GetLimit = L > 0 and GetOffset = O ≥ 0, each list
operation returns totalCount equal to the number of matching rows N and a
page of min(L, N − O) items — for reviews in both backends under the
reviews→ratings foreign key, unconditionally; for the Postgres ratings and
comments lists additionally provided the sanitized sort field is a column of
the queried table (sortBy empty, or resolving to score/created_at/updated_at
for ratings and to created_at/updated_at/content for comments), otherwise
the query fails; the MySQL lists ignore the sort field and need no proviso. -/
theorem claim_C5 : ∀ (st : Store) (id : UUID) (p : PaginationParams),
    0 < p.GetLimit → 0 ≤ p.GetOffset →
    (st.reviewsHaveRatings →
      ∃ items, pgGetReviewsByService st id p
          = .ok (items, (st.reviews.filter fun rv => rv.ServiceID == id).length)
        ∧ items.length = min p.GetLimit.toNat
            ((st.reviews.filter fun rv => rv.ServiceID == id).length - p.GetOffset.toNat))
    ∧ (st.reviewsHaveRatings →
      ∃ items, mysqlGetReviewsByService st id p
          = .ok (items, (st.reviews.filter fun rv => rv.ServiceID == id).length)
        ∧ items.length = min p.GetLimit.toNat
            ((st.reviews.filter fun rv => rv.ServiceID == id).length - p.GetOffset.toNat))
    ∧ (p.SortBy = "" ∨ ratingColumns.contains (sanitizeSortField p.SortBy) = true →
      ∃ items, pgGetRatingsByService st id p
          = .ok (items, (st.ratings.filter fun r => r.ServiceID == id).length)
        ∧ items.length = min p.GetLimit.toNat
            ((st.ratings.filter fun r => r.ServiceID == id).length - p.GetOffset.toNat))
    ∧ (∃ items, mysqlGetRatingsByService st id p
          = .ok (items, (st.ratings.filter fun r => r.ServiceID == id).length)
        ∧ items.length = min p.GetLimit.toNat
            ((st.ratings.filter fun r => r.ServiceID == id).length - p.GetOffset.toNat))
    ∧ (p.SortBy = "" ∨ commentColumns.contains (sanitizeSortField p.SortBy) = true →
      ∃ items, pgGetCommentsByReview st id p
          = .ok (items, (st.comments.filter fun c => c.ReviewID == id).length)
        ∧ items.length = min p.GetLimit.toNat
            ((st.comments.filter fun c => c.ReviewID == id).length - p.GetOffset.toNat))
    ∧ (∃ items, mysqlGetCommentsByReview st id p
          = .ok (items, (st.comments.filter fun c => c.ReviewID == id).length)
        ∧ items.length = min p.GetLimit.toNat
            ((st.comments.filter fun c => c.ReviewID == id).length - p.GetOffset.toNat)) := by
  intro st id p hL hO
  obtain ⟨hL2, hO2⟩ := mysql_paging_eq p hL hO
  refine ⟨?_, ?_, ?_, ?_, ?_, ?_⟩
  · intro hFK
    simp only [pgGetReviewsByService]
    by_cases hsb : p.GetSortBy ≠ ""
    · rw [if_pos hsb]
      refine ⟨_, rfl, ?_⟩
      rw [paged_length, reviewRows_length st id hFK]
    · rw [if_neg hsb]
      refine ⟨_, rfl, ?_⟩
      rw [paged_length, reviewRows_length st id hFK]
  · intro hFK
    simp only [mysqlGetReviewsByService]
    rw [hL2, hO2]
    refine ⟨_, rfl, ?_⟩
    rw [paged_length, reviewRows_length st id hFK]
  · intro hOK
    simp only [pgGetRatingsByService]
    by_cases hsb : p.GetSortBy ≠ ""
    · have hcont : ratingColumns.contains (sanitizeSortField p.GetSortBy) = true := by
        cases hOK with
        | inl h => exact absurd h hsb
        | inr h => exact h
      rw [if_pos hsb, if_pos hcont]
      refine ⟨_, rfl, ?_⟩
      rw [paged_length]
    · rw [if_neg hsb]
      refine ⟨_, rfl, ?_⟩
      rw [paged_length]
  · simp only [mysqlGetRatingsByService]
    rw [hL2, hO2]
    refine ⟨_, rfl, ?_⟩
    rw [paged_length]
  · intro hOK
    simp only [pgGetCommentsByReview]
    by_cases hsb : p.GetSortBy ≠ ""
    · have hcont : commentColumns.contains (sanitizeSortField p.GetSortBy) = true := by
        cases hOK with
        | inl h => exact absurd h hsb
        | inr h => exact h
      rw [if_pos hsb, if_pos hcont]
      refine ⟨_, rfl, ?_⟩
      rw [paged_length]
    · rw [if_neg hsb]
      refine ⟨_, rfl, ?_⟩
      rw [paged_length]
  · simp only [mysqlGetCommentsByReview]
    rw [hL2, hO2]
    refine ⟨_, rfl, ?_⟩
    rw [paged_length]

/-- C5 witness: a store with one review (and its rating) for service 7; with
limit 10 and offset 0 the Postgres review list returns 1 item and total 1,
and with offset 5 ≥ N it returns 0 items while the total is still 1. -/
theorem claim_C5_witness :
    (∃ items, pgGetReviewsByService
        ⟨[⟨1, 1, 7, 5, 0, 0⟩], [⟨2, 1, 7, 1, "t", "c", 0, 0⟩], []⟩ 7 ⟨1, 10, "", "desc"⟩
        = .ok (items, 1) ∧ items.length = 1)
    ∧ (∃ items, pgGetReviewsByService
        ⟨[⟨1, 1, 7, 5, 0, 0⟩], [⟨2, 1, 7, 1, "t", "c", 0, 0⟩], []⟩ 7 ⟨2, 5, "", "desc"⟩
        = .ok (items, 1) ∧ items.length = 0) := by
  constructor
  · obtain ⟨items, h1, h2⟩ :=
      (claim_C5 ⟨[⟨1, 1, 7, 5, 0, 0⟩], [⟨2, 1, 7, 1, "t", "c", 0, 0⟩], []⟩ 7
        ⟨1, 10, "", "desc"⟩ (by decide) (by decide)).1 (by
          unfold Store.reviewsHaveRatings
          intro rv hrv
          simp only [List.mem_singleton] at hrv
          subst hrv
          exact ⟨⟨1, 1, 7, 5, 0, 0⟩, by simp, rfl⟩)
    exact ⟨items, h1, h2⟩
  · obtain ⟨items, h1, h2⟩ :=
      (claim_C5 ⟨[⟨1, 1, 7, 5, 0, 0⟩], [⟨2, 1, 7, 1, "t", "c", 0, 0⟩], []⟩ 7
        ⟨2, 5, "", "desc"⟩ (by decide) (by decide)).1 (by
          unfold Store.reviewsHaveRatings
          intro rv hrv
          simp only [List.mem_singleton] at hrv
          subst hrv
          exact ⟨⟨1, 1, 7, 5, 0, 0⟩, by simp, rfl⟩)
    exact ⟨items, h1, h2⟩
